import Mathlib

/-!
Verification of the PandasSpread core: the column-letter codec, the
rectangle enumerator, the region resolver and the key resolver, shallowly
embedded from `src/spreadpandas/operations.py` and
`src/spreadpandas/spreadsheet.py` (the variant validated by the repository's
test suite). Python integers are modelled as `Int`, Python strings as
`String`, raised exceptions as an explicit error type, and `None` as
`Option.none`.
-/

/-- Python exceptions raised by the embedded code: `ValueError` (the spec's
RangeError / ValueError classes), `KeyError` (the spec's IndexOutOfRange),
`TypeError`, and `IndexError` (out-of-bounds sequence access). -/
inductive PyErr where
  | valueError (msg : String)
  | keyError (msg : String)
  | typeError (msg : String)
  | indexError
  deriving DecidableEq, Repr

/-- Result of running a piece of Python code: a value or a raised exception. -/
abbrev PyRes (α : Type) := Except PyErr α

/-- `custom_types.Coordinate`: `(column_index, row_number)`. -/
abbrev Coordinate := Int × Int

/-- `custom_types.CoordinatesPair`: `(top_left, bottom_right)`. -/
abbrev CoordinatesPair := Coordinate × Coordinate

/-- `string.ascii_uppercase` as a list of characters. -/
def asciiUppercase : List Char :=
  ['A', 'B', 'C', 'D', 'E', 'F', 'G', 'H', 'I', 'J', 'K', 'L', 'M',
   'N', 'O', 'P', 'Q', 'R', 'S', 'T', 'U', 'V', 'W', 'X', 'Y', 'Z']

/-- `string.ascii_uppercase[k]`.  Every subscript the source reaches is `< 26`
(`% 26`, `% 26**2 // 26`, `% 26**3 // 26**2`), so the default is never used. -/
def uppercaseNth (k : Nat) : Char := asciiUppercase.getD k 'A'

/-- Python `list.index` / `str.index` on characters: first index of `c`,
`none` when absent (Python raises ValueError). -/
def charIndex (c : Char) : List Char → Option Nat
  | [] => none
  | x :: xs => if x = c then some 0 else (charIndex c xs).map (· + 1)

/-- `string.ascii_uppercase.index(c)`: raises ValueError when `c` is not an
uppercase letter. -/
def asciiIndex (c : Char) : PyRes Nat :=
  match charIndex c asciiUppercase with
  | some k => .ok k
  | none => .error (.valueError "substring not found")

/-- `operations.letter_from_index` (spreadpandas variant, the one the test
suite validates).  The source binds `units_letter`, `hundreds_letter`,
`thousands_letter` before each branch; the bindings are inlined here, which
is observationally identical because the subscripts never fail. -/
def letter_from_index (letter_index : Int) : PyRes String :=
  if letter_index < 0 then
    .error (.valueError ("Minimum accepted value is 0, " ++ toString letter_index
      ++ " was provided"))
  else if letter_index ≤ 25 then
    .ok (String.mk [uppercaseNth (letter_index.toNat % 26)])
  else if letter_index ≤ 26 ^ 2 + 25 then
    .ok (String.mk [uppercaseNth ((letter_index.toNat - 26) % 26 ^ 2 / 26),
                    uppercaseNth (letter_index.toNat % 26)])
  else if letter_index ≤ 26 ^ 3 + 26 ^ 2 + 25 then
    .ok (String.mk [uppercaseNth ((letter_index.toNat - 26 ^ 2 - 26) % 26 ^ 3 / 26 ^ 2),
                    uppercaseNth ((letter_index.toNat - 26) % 26 ^ 2 / 26),
                    uppercaseNth (letter_index.toNat % 26)])
  else .error (.valueError "The program does not handle indexes past 18 277 yet")

/-- Python negative indexing `s[-k]` on a character list, for `k ≥ 1`:
IndexError when the string is shorter than `k`. -/
def pyCharAtNeg (cs : List Char) (k : Nat) : PyRes Char :=
  if h : 1 ≤ k ∧ k ≤ cs.length then .ok (cs.get ⟨cs.length - k, by omega⟩)
  else .error .indexError

/-- `operations.index_from_letter` (spreadpandas variant, digits offset by
`+ 1` for the second and third letter, as the test suite validates). -/
def index_from_letter (spreadsheet_letter : String) : PyRes Int := do
  let units ← asciiIndex (← pyCharAtNeg spreadsheet_letter.data 1)
  if spreadsheet_letter.data.length = 1 then
    .ok (units : Int)
  else do
    let hundreds := (← asciiIndex (← pyCharAtNeg spreadsheet_letter.data 2)) + 1
    if spreadsheet_letter.data.length = 2 then
      .ok ((26 * hundreds + units : Nat) : Int)
    else do
      let thousands := (← asciiIndex (← pyCharAtNeg spreadsheet_letter.data 3)) + 1
      if spreadsheet_letter.data.length = 3 then
        .ok ((26 ^ 2 * thousands + 26 * hundreds + units : Nat) : Int)
      else .error (.valueError "The program does not handle column letters past 'ZZZ' yet")

/-- `operations.row_number_from_index`. -/
def row_number_from_index (row_index : Int) : PyRes String :=
  if row_index < 0 then
    .error (.valueError ("Negative values are not accepted: " ++ toString row_index
      ++ " was passed."))
  else .ok (toString (row_index + 1))

/-- `operations.cell_from_coordinates`. -/
def cell_from_coordinates (coordinates : Coordinate) : PyRes String := do
  .ok ((← letter_from_index coordinates.1) ++ (← row_number_from_index coordinates.2))

/-- `operations.cells_range`. -/
def cells_range (coordinates_pair : CoordinatesPair) : PyRes String := do
  let cell1 ← cell_from_coordinates coordinates_pair.1
  let cell2 ← cell_from_coordinates coordinates_pair.2
  .ok (cell1 ++ ":" ++ cell2)

/-- Python `range(a, b + 1)` over integers: `[a, a+1, …, b]`, empty when
`b < a`. -/
def intRange (a b : Int) : List Int :=
  (List.range (b + 1 - a).toNat).map (fun k : Nat => a + (k : Int))

/-- Eager evaluation of a Python generator expression: map with exception
propagation, in left-to-right order. -/
def mapE (f : α → PyRes β) : List α → PyRes (List β)
  | [] => .ok []
  | x :: xs => do
    let y ← f x
    let ys ← mapE f xs
    .ok (y :: ys)

/-- The tuple assigned to `cells` inside `operations.cells_rectangle`
(lines 29–33): row-major, outer loop over row numbers, inner loop over
column indexes. -/
def cells_rectangle_cells (coordinates : CoordinatesPair) : PyRes (List String) := do
  let rows ← mapE (fun number =>
      mapE (fun letter => do
          .ok ((← letter_from_index letter) ++ toString number))
        (intRange coordinates.1.1 coordinates.2.1))
    (intRange coordinates.1.2 coordinates.2.2)
  .ok rows.flatten

/-- `operations.cells_rectangle`: the source evaluates the tuple of cells and
then falls off the end of the function without a `return` statement, so the
call returns Python `None` (unless the evaluation itself raised). -/
def cells_rectangle (coordinates : CoordinatesPair) : PyRes (Option (List String)) := do
  let _cells ← cells_rectangle_cells coordinates
  .ok none

/-- Python `int(bool)` as used in the coordinate formulas
(`self.indexes_depth[0] * self.keep_index`). -/
def boolInt (b : Bool) : Int := if b then 1 else 0

/-- The attributes of `spreadsheet.Spreadsheet.__init__` (`keep_index`,
`skip_rows`, `skip_columns`; there is no `keep_header` parameter) together
with the dataset-view quantities the methods read from the wrapped
dataframe: `df.shape`, `indexes_depth`, `df.columns.to_list()`. -/
structure Spread where
  keep_index : Bool
  skip_rows : Int
  skip_cols : Int
  n_rows : Int
  n_cols : Int
  index_depth : Int
  header_depth : Int
  col_labels : List String

/-- `Spreadsheet.header_coordinates`. -/
def header_coordinates (s : Spread) : CoordinatesPair :=
  ((s.index_depth * boolInt s.keep_index + s.skip_cols, s.skip_rows + 1),
   (s.index_depth * boolInt s.keep_index + s.skip_cols - 1 + s.n_cols,
    s.skip_rows + 1 - 1 + s.header_depth))

/-- `Spreadsheet.index_coordinates`: `None` when the index is not kept. -/
def index_coordinates (s : Spread) : Option CoordinatesPair :=
  if !s.keep_index then none
  else some ((s.skip_cols, s.header_depth + 1 + s.skip_rows),
             (s.skip_cols - 1 + s.index_depth,
              s.header_depth + 1 + s.skip_rows - 1 + s.n_rows))

/-- `Spreadsheet.first_column_coordinates`. -/
def first_column_coordinates (s : Spread) : CoordinatesPair :=
  ((s.skip_cols + s.index_depth * boolInt s.keep_index,
    s.header_depth + 1 + s.skip_rows),
   (s.skip_cols + s.index_depth * boolInt s.keep_index,
    s.header_depth + 1 + s.skip_rows - 1 + s.n_rows))

/-- `Spreadsheet.body_coordinates`. -/
def body_coordinates (s : Spread) : CoordinatesPair :=
  (((header_coordinates s).1.1, (first_column_coordinates s).1.2),
   ((header_coordinates s).2.1, (first_column_coordinates s).2.2))

/-- `Spreadsheet.table_coordinates`: subscripts `self.index_coordinates`
unconditionally, so when the index is not kept the Python code evaluates
`None[0]` and raises TypeError — modelled as `none`. -/
def table_coordinates (s : Spread) : Option CoordinatesPair :=
  match index_coordinates s with
  | none => none
  | some ic => some ((ic.1.1, (header_coordinates s).1.2),
                     ((header_coordinates s).2.1, ic.2.2))

/-- The `Spreadsheet.header` property: always builds a `SpreadsheetElement`;
no configuration ever makes it the "no region" sentinel. -/
def header_element (s : Spread) : Option CoordinatesPair :=
  some (header_coordinates s)

/-- The 3-row × 3-column dataset of the repository's test suite with the
default configuration (`keep_index=False`, no skips, flat index and header). -/
def ex3 : Spread :=
  { keep_index := false, skip_rows := 0, skip_cols := 0, n_rows := 3, n_cols := 3,
    index_depth := 1, header_depth := 1, col_labels := ["A", "B", "C"] }

/-- The same shape with column labels `["Foo", "Bar", "Fez"]`. -/
def exFoo : Spread := { ex3 with col_labels := ["Foo", "Bar", "Fez"] }

/-- A dataset view with three rows and zero columns, default configuration. -/
def exNoCols : Spread := { ex3 with n_cols := 0 }

/-- Python `str.split(sep)` on a character list: splitting the empty string
gives one empty bit, and a trailing separator yields a trailing empty bit. -/
def splitOnChar (sep : Char) : List Char → List (List Char)
  | [] => [[]]
  | c :: rest =>
    match splitOnChar sep rest with
    | [] => if c = sep then [[], []] else [[c]]
    | h :: t => if c = sep then [] :: h :: t else (c :: h) :: t

/-- Python `str.strip()` on a character list. -/
def strTrim (cs : List Char) : List Char :=
  ((cs.dropWhile Char.isWhitespace).reverse.dropWhile Char.isWhitespace).reverse

/-- Python `str.strip()` on a string. -/
def pyStrip (t : String) : String := String.mk (strTrim t.data)

/-- Python `list.index` on the column-label list: first index of `t`, `none`
when absent (Python raises ValueError, which the caller catches). -/
def listIndex (t : String) : List String → Option Nat
  | [] => none
  | x :: xs => if x = t then some 0 else (listIndex t xs).map (· + 1)

/-- Value of a nonempty digit string, most significant first. -/
def digitsVal (ds : List Char) : Int :=
  ds.foldl (fun a c => 10 * a + ((c.toNat - '0'.toNat : Nat) : Int)) 0

/-- Python `int(s)` on a string: strip whitespace, optional sign, at least
one decimal digit; `none` models the ValueError raised otherwise. -/
def pyIntParse (s : String) : Option Int :=
  match strTrim s.data with
  | [] => none
  | '-' :: ds => if ds ≠ [] ∧ ds.all Char.isDigit then some (-(digitsVal ds)) else none
  | '+' :: ds => if ds ≠ [] ∧ ds.all Char.isDigit then some (digitsVal ds) else none
  | ds => if ds.all Char.isDigit then some (digitsVal ds) else none

/-- `Spreadsheet._str_index_to_int`: strip the token; for columns try the
exact match against `df.columns.to_list()` first and fall back to the letter
codec; for rows parse a base-10 integer. -/
def str_index_to_int (s : Spread) (single_item_str : String) (columns : Bool) : PyRes Int :=
  if columns then
    match listIndex (pyStrip single_item_str) s.col_labels with
    | some k => .ok (k : Int)
    | none => index_from_letter (pyStrip single_item_str)
  else
    match pyIntParse single_item_str with
    | some v => .ok v
    | none => .error (.valueError ("The row key provided is not convertible to int: "
        ++ pyStrip single_item_str))

/-- The loop body of `Spreadsheet._str_key_to_int` over the comma-separated
bits: a bit is a plain token, a two-part colon range (inclusive), or an
error when it holds more than one colon. -/
def resolveBits (s : Spread) (columns : Bool) : List String → PyRes (List Int)
  | [] => .ok []
  | bit :: rest => do
    let part ←
      match (splitOnChar ':' bit.data).map String.mk with
      | [single] => do
        .ok [← str_index_to_int s single columns]
      | [lo, hi] => do
        let a ← str_index_to_int s lo columns
        let b ← str_index_to_int s hi columns
        .ok (intRange a b)
      | _ => .error (.valueError
          "The column key cannot have two colons without a comma in between")
    let restInts ← resolveBits s columns rest
    .ok (part ++ restInts)

/-- `Spreadsheet._str_key_to_int`: split the key on commas and resolve each
bit in order. -/
def str_key_to_int (s : Spread) (str_key : String) (columns : Bool) : PyRes (List Int) :=
  resolveBits s columns ((splitOnChar ',' str_key.data).map String.mk)

/-- The first loop of `Spreadsheet.column`: build `int_index` from the
normalized key list (strings through `_str_key_to_int`, integers as-is). -/
def resolve_column_key (s : Spread) : List (Int ⊕ String) → PyRes (List Int)
  | [] => .ok []
  | (.inl i) :: rest => do
    .ok (i :: (← resolve_column_key s rest))
  | (.inr str) :: rest => do
    let part ← str_key_to_int s str true
    .ok (part ++ (← resolve_column_key s rest))

/-- The second loop of `Spreadsheet.column`: bound check against the body's
bottom-right column, then `cells.extend(operations.cells_rectangle(...))`;
since `cells_rectangle` returns `None`, the extend raises TypeError. -/
def column_loop (s : Spread) (top_row end_row : Int) : List Int → PyRes (List String)
  | [] => .ok []
  | col_index :: rest =>
    if col_index > (body_coordinates s).2.1 then
      .error (.keyError "A column you are trying to access is out of index")
    else do
      match ← cells_rectangle ((col_index, top_row), (col_index, end_row)) with
      | none => .error (.typeError "argument of type NoneType is not iterable")
      | some cs => do
        .ok (cs ++ (← column_loop s top_row end_row rest))

/-- `Spreadsheet.column` (key already normalized by `_input_as_list`;
dict-typed keys were rejected there with TypeError). -/
def column (s : Spread) (key : List (Int ⊕ String)) (include_header : Bool) :
    PyRes (List String) := do
  let int_index ← resolve_column_key s key
  let top_row := s.header_depth * boolInt (!include_header) + 1 + s.skip_rows
  let end_row := (body_coordinates s).2.2
  column_loop s top_row end_row int_index

/-- The first loop of `Spreadsheet.row`: strings through `_str_key_to_int`
with `columns=False`, integer elements incremented by one. -/
def resolve_row_key (s : Spread) : List (Int ⊕ String) → PyRes (List Int)
  | [] => .ok []
  | (.inl i) :: rest => do
    .ok ((i + 1) :: (← resolve_row_key s rest))
  | (.inr str) :: rest => do
    let part ← str_key_to_int s str false
    .ok (part ++ (← resolve_row_key s rest))

/-- The second loop of `Spreadsheet.row`: bound check against the body's
bottom-right row, then the same `extend` of the `None` returned by
`cells_rectangle`. -/
def row_loop (s : Spread) (left_col right_col : Int) : List Int → PyRes (List String)
  | [] => .ok []
  | row_index :: rest =>
    if row_index > (body_coordinates s).2.2 then
      .error (.keyError "A row you are trying to access is out of index")
    else do
      match ← cells_rectangle ((left_col, row_index), (right_col, row_index)) with
      | none => .error (.typeError "argument of type NoneType is not iterable")
      | some cs => do
        .ok (cs ++ (← row_loop s left_col right_col rest))

/-- `Spreadsheet.row` (key already normalized by `_input_as_list`). -/
def row (s : Spread) (key : List (Int ⊕ String)) (include_index : Bool) :
    PyRes (List String) := do
  let int_index ← resolve_row_key s key
  let left_col := s.skip_cols + (s.index_depth * boolInt (!include_index)) * boolInt s.keep_index
  let right_col := (body_coordinates s).2.1
  row_loop s left_col right_col int_index

/-- The spec's CoordinatePair invariant: top-left dominates bottom-right in
neither dimension. -/
def pairInv (p : CoordinatesPair) : Prop :=
  p.1.1 ≤ p.2.1 ∧ p.1.2 ≤ p.2.2

/-- Closed form of the letter produced by `letter_from_index` on the
supported domain, used to state its results without the error monad. -/
def pureLetterNat (n : Nat) : String :=
  if n ≤ 25 then String.mk [uppercaseNth (n % 26)]
  else if n ≤ 701 then
    String.mk [uppercaseNth ((n - 26) % 676 / 26), uppercaseNth (n % 26)]
  else
    String.mk [uppercaseNth ((n - 676 - 26) % 17576 / 676),
               uppercaseNth ((n - 26) % 676 / 26), uppercaseNth (n % 26)]

/-- The 3 × 3 test dataset with `keep_index=True`. -/
def exKeepIndex : Spread := { ex3 with keep_index := true }

@[simp] theorem pyBind_ok (a : α) (f : α → PyRes β) :
    (Except.ok a >>= f : PyRes β) = f a := rfl

@[simp] theorem pyBind_err (e : PyErr) (f : α → PyRes β) :
    (Except.error e >>= f : PyRes β) = .error e := rfl

theorem asciiIndex_uppercaseNth {k : Nat} (h : k < 26) :
    asciiIndex (uppercaseNth k) = .ok k := by
  have base : ∀ j : Fin 26, charIndex (uppercaseNth j.1) asciiUppercase = some j.1 := by decide
  unfold asciiIndex
  rw [base ⟨k, h⟩]

theorem ascii_mem {c : Char} (h : c ∈ asciiUppercase) :
    ∃ k : Nat, k < 26 ∧ asciiIndex c = .ok k ∧ uppercaseNth k = c := by
  have base : ∀ c ∈ asciiUppercase,
      ∃ j : Fin 26, charIndex c asciiUppercase = some j.1 ∧ uppercaseNth j.1 = c := by decide
  obtain ⟨j, h1, h2⟩ := base c h
  refine ⟨j.1, j.2, ?_, h2⟩
  unfold asciiIndex
  rw [h1]

theorem letter_from_index_natCast {n : Nat} (h : n ≤ 18277) :
    letter_from_index (n : Int) = .ok (pureLetterNat n) := by
  unfold letter_from_index pureLetterNat
  rw [Int.toNat_natCast]
  norm_num
  split_ifs <;> first | rfl | omega

theorem letter_ok_int {i : Int} (h0 : 0 ≤ i) (h1 : i ≤ 18277) :
    letter_from_index i = .ok (pureLetterNat i.toNat) := by
  have := letter_from_index_natCast (n := i.toNat) (by omega)
  rwa [Int.toNat_of_nonneg h0] at this

theorem pyCharAtNeg1_1 (a : Char) : pyCharAtNeg [a] 1 = .ok a := rfl

theorem pyCharAtNeg2_1 (a b : Char) : pyCharAtNeg [a, b] 1 = .ok b := rfl

theorem pyCharAtNeg2_2 (a b : Char) : pyCharAtNeg [a, b] 2 = .ok a := rfl

theorem pyCharAtNeg3_1 (a b c : Char) : pyCharAtNeg [a, b, c] 1 = .ok c := rfl

theorem pyCharAtNeg3_2 (a b c : Char) : pyCharAtNeg [a, b, c] 2 = .ok b := rfl

theorem pyCharAtNeg3_3 (a b c : Char) : pyCharAtNeg [a, b, c] 3 = .ok a := rfl

theorem index_from_letter_mk1 {a : Char} {ka : Nat} (ha : asciiIndex a = .ok ka) :
    index_from_letter (String.mk [a]) = .ok (ka : Int) := by
  simp [index_from_letter, pyCharAtNeg1_1, ha]

theorem index_from_letter_mk2 {a b : Char} {ka kb : Nat}
    (ha : asciiIndex a = .ok ka) (hb : asciiIndex b = .ok kb) :
    index_from_letter (String.mk [a, b]) = .ok ((26 * (ka + 1) + kb : Nat) : Int) := by
  simp [index_from_letter, pyCharAtNeg2_1, pyCharAtNeg2_2, ha, hb]

theorem index_from_letter_mk3 {a b c : Char} {ka kb kc : Nat}
    (ha : asciiIndex a = .ok ka) (hb : asciiIndex b = .ok kb) (hc : asciiIndex c = .ok kc) :
    index_from_letter (String.mk [a, b, c]) =
      .ok ((676 * (ka + 1) + 26 * (kb + 1) + kc : Nat) : Int) := by
  simp [index_from_letter, pyCharAtNeg3_1, pyCharAtNeg3_2, pyCharAtNeg3_3, ha, hb, hc]

theorem index_pureLetter {n : Nat} (h : n ≤ 18277) :
    index_from_letter (pureLetterNat n) = .ok (n : Int) := by
  unfold pureLetterNat
  by_cases h1 : n ≤ 25
  · rw [if_pos h1, index_from_letter_mk1 (asciiIndex_uppercaseNth (by omega))]
    congr 1
    omega
  · by_cases h2 : n ≤ 701
    · rw [if_neg h1, if_pos h2,
        index_from_letter_mk2 (asciiIndex_uppercaseNth (by omega))
          (asciiIndex_uppercaseNth (by omega))]
      congr 1
      omega
    · rw [if_neg h1, if_neg h2,
        index_from_letter_mk3 (asciiIndex_uppercaseNth (by omega))
          (asciiIndex_uppercaseNth (by omega)) (asciiIndex_uppercaseNth (by omega))]
      congr 1
      omega


theorem mapE_ok_of {f : α → PyRes β} {g : α → β} :
    ∀ l : List α, (∀ a ∈ l, f a = .ok (g a)) → mapE f l = .ok (l.map g) := by
  intro l
  induction l with
  | nil => intro _; rfl
  | cons x xs ih =>
    intro h
    have hx := h x (List.mem_cons_self x xs)
    have hxs := ih (fun a ha => h a (List.mem_cons_of_mem x ha))
    simp [mapE, hx, hxs]

theorem intRange_mem {a b x : Int} (h : x ∈ intRange a b) : a ≤ x ∧ x ≤ b := by
  unfold intRange at h
  rw [List.mem_map] at h
  obtain ⟨k, hk, rfl⟩ := h
  rw [List.mem_range] at hk
  omega

theorem intRange_length (a b : Int) : (intRange a b).length = (b + 1 - a).toNat := by
  unfold intRange
  rw [List.length_map, List.length_range]

theorem intRange_getElem? (a b : Int) (k : Nat) (h : k < (b + 1 - a).toNat) :
    (intRange a b)[k]? = some (a + (k : Int)) := by
  unfold intRange
  rw [List.getElem?_map, List.getElem?_range h]
  rfl

theorem sum_map_const {l : List α} {c : Nat} : (l.map (fun _ => c)).sum = l.length * c := by
  induction l with
  | nil => simp
  | cons x xs ih => simp [ih, Nat.succ_mul, Nat.add_comm]

theorem cells_rectangle_cells_closed {sc sn ec en : Int} (h0 : 0 ≤ sc) (h1 : ec ≤ 18277) :
    cells_rectangle_cells ((sc, sn), (ec, en)) =
      .ok (((intRange sn en).map (fun n =>
        (intRange sc ec).map (fun l => pureLetterNat l.toNat ++ toString n))).flatten) := by
  unfold cells_rectangle_cells
  have inner : ∀ n : Int,
      mapE (fun letter => do
          (.ok ((← letter_from_index letter) ++ toString n) : PyRes String))
        (intRange sc ec)
        = .ok ((intRange sc ec).map (fun l => pureLetterNat l.toNat ++ toString n)) := by
    intro n
    apply mapE_ok_of
    intro l hl
    obtain ⟨hl1, hl2⟩ := intRange_mem hl
    show (letter_from_index l >>= fun x => .ok (x ++ toString n)) = _
    rw [letter_ok_int (by omega) (by omega)]
    rfl
  rw [show mapE (fun number => mapE (fun letter => do
        (.ok ((← letter_from_index letter) ++ toString number) : PyRes String))
        (intRange sc ec)) (intRange sn en)
      = .ok ((intRange sn en).map (fun n =>
          (intRange sc ec).map (fun l => pureLetterNat l.toNat ++ toString n)))
    from mapE_ok_of _ (fun n _ => inner n)]
  rfl

theorem cells_rectangle_cells_length {sc sn ec en : Int} (h0 : 0 ≤ sc) (h1 : ec ≤ 18277)
    {cells : List String} (hc : cells_rectangle_cells ((sc, sn), (ec, en)) = .ok cells) :
    cells.length = (en + 1 - sn).toNat * (ec + 1 - sc).toNat := by
  rw [cells_rectangle_cells_closed h0 h1] at hc
  simp only [Except.ok.injEq] at hc
  subst hc
  rw [List.length_flatten, List.map_map]
  have : (List.length ∘ fun n : Int =>
        (intRange sc ec).map (fun l => pureLetterNat l.toNat ++ toString n))
      = fun _ : Int => (ec + 1 - sc).toNat := by
    funext n
    simp [intRange_length]
  rw [this, sum_map_const, intRange_length]

theorem cells_rectangle_ok_none {p : CoordinatesPair} {o : Option (List String)}
    (h : cells_rectangle p = .ok o) : o = none := by
  unfold cells_rectangle at h
  cases hc : cells_rectangle_cells p with
  | error e => rw [hc] at h; simp at h
  | ok l => rw [hc] at h; simp at h; exact h.symm

theorem resolve_column_key_ints (s : Spread) :
    ∀ l : List Int, resolve_column_key s (l.map Sum.inl) = .ok l := by
  intro l
  induction l with
  | nil => rfl
  | cons x xs ih => simp [resolve_column_key, ih]

theorem resolve_row_key_ints (s : Spread) :
    ∀ l : List Int, resolve_row_key s (l.map Sum.inl) = .ok (l.map (fun i => i + 1)) := by
  intro l
  induction l with
  | nil => rfl
  | cons x xs ih => simp [resolve_row_key, ih]

theorem column_loop_not_ok (s : Spread) (tr er c : Int) (rest : List Int)
    (h : ¬(body_coordinates s).2.1 < c) :
    ∀ cs, column_loop s tr er (c :: rest) ≠ .ok cs := by
  intro cs
  unfold column_loop
  rw [if_neg h]
  cases hcr : cells_rectangle ((c, tr), (c, er)) with
  | error e => simp [hcr]
  | ok o =>
    have ho := cells_rectangle_ok_none hcr
    subst ho
    simp [hcr]

theorem listIndex_first {t : String} :
    ∀ (l : List String) (k : Nat), listIndex t l = some k →
      l[k]? = some t ∧ ∀ j, j < k → l[j]? ≠ some t := by
  intro l
  induction l with
  | nil => intro k h; simp [listIndex] at h
  | cons x xs ih =>
    intro k h
    unfold listIndex at h
    by_cases hx : x = t
    · rw [if_pos hx] at h
      injection h with h
      subst h
      exact ⟨by simp [hx], fun j hj => absurd hj (by omega)⟩
    · rw [if_neg hx] at h
      cases hxs : listIndex t xs with
      | none => rw [hxs] at h; simp at h
      | some q =>
        rw [hxs] at h
        simp at h
        subst h
        obtain ⟨h1, h2⟩ := ih q hxs
        refine ⟨by simpa using h1, ?_⟩
        intro j hj
        cases j with
        | zero => simp [hx]
        | succ j2 =>
          simp only [List.getElem?_cons_succ]
          exact h2 j2 (by omega)

/-- C1: `cells_rectangle` is claimed to return the row-major sequence of cell
labels (with `cells_of(((0,1),(1,2))) = ["A1","B1","A2","B2"]`).  The source
computes exactly that tuple but falls off the end without returning it, so
the call yields `None`; the discarded tuple is the claimed row-major,
ascending-rows/ascending-columns enumeration of length rows × cols. -/
theorem c1_cells_rectangle :
    cells_rectangle ((0, 1), (1, 2)) = .ok none
    ∧ cells_rectangle_cells ((0, 1), (1, 2)) = .ok ["A1", "B1", "A2", "B2"]
    ∧ (∀ p : CoordinatesPair,
        cells_rectangle p = Except.map (fun _ => (none : Option (List String)))
          (cells_rectangle_cells p))
    ∧ (∀ sc sn ec en : Int, 0 ≤ sc → ec ≤ 18277 →
        cells_rectangle_cells ((sc, sn), (ec, en)) =
          .ok (((intRange sn en).map (fun n =>
            (intRange sc ec).map (fun l => pureLetterNat l.toNat ++ toString n))).flatten))
    ∧ (∀ a b : Int, ∀ k : Nat, k < (b + 1 - a).toNat →
        (intRange a b)[k]? = some (a + (k : Int)))
    ∧ (∀ sc sn ec en : Int, 0 ≤ sc → ec ≤ 18277 → ∀ cells,
        cells_rectangle_cells ((sc, sn), (ec, en)) = .ok cells →
        cells.length = (en + 1 - sn).toNat * (ec + 1 - sc).toNat) := by
  refine ⟨rfl, rfl, ?_, ?_, ?_, ?_⟩
  · intro p
    unfold cells_rectangle
    cases h : cells_rectangle_cells p with
    | error e => simp [h, Except.map]
    | ok l => simp [h, Except.map]
  · exact fun sc sn ec en h0 h1 => cells_rectangle_cells_closed h0 h1
  · exact intRange_getElem?
  · exact fun sc sn ec en h0 h1 cells hc => cells_rectangle_cells_length h0 h1 hc

/-- Witness for C1's quantified conjuncts at the claim's own example
rectangle ((0,1),(1,2)). -/
theorem c1_cells_rectangle_witness :
    cells_rectangle_cells ((0, 1), (1, 2)) =
      .ok (((intRange 1 2).map (fun n =>
        (intRange 0 1).map (fun l => pureLetterNat l.toNat ++ toString n))).flatten)
    ∧ (intRange 0 1)[1]? = some (0 + ((1 : Nat) : Int))
    ∧ ["A1", "B1", "A2", "B2"].length = ((2 : Int) + 1 - 1).toNat * ((1 : Int) + 1 - 0).toNat :=
  ⟨c1_cells_rectangle.2.2.2.1 0 1 1 2 (by norm_num) (by norm_num),
   c1_cells_rectangle.2.2.2.2.1 0 1 1 (by norm_num),
   c1_cells_rectangle.2.2.2.2.2 0 1 1 2 (by norm_num) (by norm_num) _ rfl⟩

/-- C2: the codec round-trip law: `index_from_letter (letter_from_index i) = i`
for every i in [0, 18277], and `letter_from_index (index_from_letter s) = s`
for every uppercase letter string of length 1–3. -/
theorem c2_codec_roundtrip :
    (∀ i : Int, 0 ≤ i → i ≤ 18277 →
      ∃ s, letter_from_index i = .ok s ∧ index_from_letter s = .ok i)
    ∧ (∀ s : String, 1 ≤ s.data.length → s.data.length ≤ 3 →
        (∀ c ∈ s.data, c ∈ asciiUppercase) →
        ∃ i, index_from_letter s = .ok i ∧ letter_from_index i = .ok s) := by
  constructor
  · intro i h0 h1
    refine ⟨pureLetterNat i.toNat, letter_ok_int h0 h1, ?_⟩
    have h := index_pureLetter (n := i.toNat) (by omega)
    rwa [Int.toNat_of_nonneg h0] at h
  · intro s hl1 hl3 hall
    rcases s with ⟨cs⟩
    cases cs with
    | nil => simp at hl1
    | cons a t =>
      cases t with
      | nil =>
        obtain ⟨ka, hka, hia, hua⟩ := ascii_mem (hall a (by simp))
        refine ⟨(ka : Int), index_from_letter_mk1 hia, ?_⟩
        rw [letter_from_index_natCast (by omega)]
        unfold pureLetterNat
        rw [if_pos (by omega), Nat.mod_eq_of_lt hka, hua]
      | cons b t2 =>
        cases t2 with
        | nil =>
          obtain ⟨ka, hka, hia, hua⟩ := ascii_mem (hall a (by simp))
          obtain ⟨kb, hkb, hib, hub⟩ := ascii_mem (hall b (by simp))
          refine ⟨((26 * (ka + 1) + kb : Nat) : Int), index_from_letter_mk2 hia hib, ?_⟩
          rw [letter_from_index_natCast (by omega)]
          unfold pureLetterNat
          rw [if_neg (by omega), if_pos (by omega)]
          have e1 : (26 * (ka + 1) + kb - 26) % 676 / 26 = ka := by omega
          have e2 : (26 * (ka + 1) + kb) % 26 = kb := by omega
          rw [e1, e2, hua, hub]
        | cons c t3 =>
          cases t3 with
          | nil =>
            obtain ⟨ka, hka, hia, hua⟩ := ascii_mem (hall a (by simp))
            obtain ⟨kb, hkb, hib, hub⟩ := ascii_mem (hall b (by simp))
            obtain ⟨kc, hkc, hic, huc⟩ := ascii_mem (hall c (by simp))
            refine ⟨((676 * (ka + 1) + 26 * (kb + 1) + kc : Nat) : Int),
              index_from_letter_mk3 hia hib hic, ?_⟩
            rw [letter_from_index_natCast (by omega)]
            unfold pureLetterNat
            rw [if_neg (by omega), if_neg (by omega)]
            have e1 : (676 * (ka + 1) + 26 * (kb + 1) + kc - 676 - 26) % 17576 / 676 = ka := by
              omega
            have e2 : (676 * (ka + 1) + 26 * (kb + 1) + kc - 26) % 676 / 26 = kb := by omega
            have e3 : (676 * (ka + 1) + 26 * (kb + 1) + kc) % 26 = kc := by omega
            rw [e1, e2, e3, hua, hub, huc]
          | cons d t4 =>
            exfalso
            simp [List.length_cons] at hl3

/-- Witness for C2 at i = 27 and s = "AB". -/
theorem c2_codec_roundtrip_witness :
    (∃ s, letter_from_index 27 = .ok s ∧ index_from_letter s = .ok 27)
    ∧ (∃ i, index_from_letter "AB" = .ok i ∧ letter_from_index i = .ok "AB") :=
  ⟨c2_codec_roundtrip.1 27 (by norm_num) (by norm_num),
   c2_codec_roundtrip.2 "AB" (by decide) (by decide) (by decide)⟩

/-- C3: `letter_from_index` fails with the RangeError-class ValueError for
every i < 0 and every i > 18277, and hits the bijective base-26 boundary
values 25 → "Z", 26 → "AA", 701 → "ZZ", 702 → "AAA", 18277 → "ZZZ". -/
theorem c3_letter_from_index_domain :
    (∀ i : Int, i < 0 → ∃ m, letter_from_index i = .error (.valueError m))
    ∧ (∀ i : Int, 18277 < i → ∃ m, letter_from_index i = .error (.valueError m))
    ∧ letter_from_index 25 = .ok "Z" ∧ letter_from_index 26 = .ok "AA"
    ∧ letter_from_index 701 = .ok "ZZ" ∧ letter_from_index 702 = .ok "AAA"
    ∧ letter_from_index 18277 = .ok "ZZZ" := by
  refine ⟨?_, ?_, rfl, rfl, rfl, rfl, rfl⟩
  · intro i h
    refine ⟨"Minimum accepted value is 0, " ++ toString i ++ " was provided", ?_⟩
    unfold letter_from_index
    rw [if_pos h]
  · intro i h
    refine ⟨"The program does not handle indexes past 18 277 yet", ?_⟩
    unfold letter_from_index
    rw [if_neg (by omega), if_neg (by omega), if_neg (by norm_num; omega),
      if_neg (by norm_num; omega)]

/-- Witness for C3 at i = -1 and i = 18278. -/
theorem c3_letter_from_index_domain_witness :
    (∃ m, letter_from_index (-1) = .error (.valueError m))
    ∧ (∃ m, letter_from_index 18278 = .error (.valueError m)) :=
  ⟨c3_letter_from_index_domain.1 (-1) (by norm_num),
   c3_letter_from_index_domain.2.1 18278 (by norm_num)⟩

/-- C4: the table region is claimed to be the union bounding box for every
configuration.  When the index is kept the code does produce the bounding
box (index top-left column, header top-left row, body bottom-right), but on
the default configuration (index not kept) `table_coordinates` subscripts
`None` and the computation fails instead of falling back to the body's
column, as witnessed on the 3 × 3 test dataset. -/
theorem c4_table_union_box :
    table_coordinates ex3 = none
    ∧ header_coordinates ex3 = ((0, 1), (2, 1))
    ∧ body_coordinates ex3 = ((0, 2), (2, 4))
    ∧ (∀ s : Spread, s.keep_index = true →
        table_coordinates s = some ((s.skip_cols, s.skip_rows + 1),
          ((body_coordinates s).2.1, (body_coordinates s).2.2))) := by
  refine ⟨rfl, rfl, rfl, ?_⟩
  intro s hk
  unfold table_coordinates index_coordinates body_coordinates header_coordinates
    first_column_coordinates
  rw [hk]
  simp [boolInt]

/-- Witness for C4: on the keep-index configuration the table is the
bounding box. -/
theorem c4_table_union_box_witness :
    table_coordinates exKeepIndex = some ((exKeepIndex.skip_cols, exKeepIndex.skip_rows + 1),
      ((body_coordinates exKeepIndex).2.1, (body_coordinates exKeepIndex).2.2)) :=
  c4_table_union_box.2.2.2 exKeepIndex rfl

/-- C5: `cells_range` is claimed to return "label(top_left):label(bottom_right)"
and the 3 × 3 no-index table's range label is claimed to be "A1:C4".  The code
concatenates the two cell labels around a colon but adds 1 to each row
coordinate (via `row_number_from_index`), so on the table rectangle
((0,1),(2,4)) it returns "A2:C5", and the table coordinates themselves fail
on the no-index configuration. -/
theorem c5_cells_range_label :
    (∀ p : CoordinatesPair, 0 ≤ p.1.1 → p.1.1 ≤ 18277 → 0 ≤ p.1.2 →
        0 ≤ p.2.1 → p.2.1 ≤ 18277 → 0 ≤ p.2.2 →
        cells_range p = .ok ((pureLetterNat p.1.1.toNat ++ toString (p.1.2 + 1)) ++ ":"
          ++ (pureLetterNat p.2.1.toNat ++ toString (p.2.2 + 1))))
    ∧ cells_range ((0, 1), (2, 4)) = .ok "A2:C5"
    ∧ table_coordinates ex3 = none := by
  refine ⟨?_, rfl, rfl⟩
  intro p h1 h2 h3 h4 h5 h6
  have hr1 : row_number_from_index p.1.2 = .ok (toString (p.1.2 + 1)) := by
    unfold row_number_from_index
    rw [if_neg (by omega)]
  have hr2 : row_number_from_index p.2.2 = .ok (toString (p.2.2 + 1)) := by
    unfold row_number_from_index
    rw [if_neg (by omega)]
  have hc1 : cell_from_coordinates p.1
      = .ok (pureLetterNat p.1.1.toNat ++ toString (p.1.2 + 1)) := by
    unfold cell_from_coordinates
    rw [letter_ok_int h1 h2]
    simp [hr1]
  have hc2 : cell_from_coordinates p.2
      = .ok (pureLetterNat p.2.1.toNat ++ toString (p.2.2 + 1)) := by
    unfold cell_from_coordinates
    rw [letter_ok_int h4 h5]
    simp [hr2]
  unfold cells_range
  rw [hc1]
  simp [hc2]

/-- Witness for C5 at the rectangle ((0,0),(1,1)); the sum is "A1:B2",
the labels of the corner cells with the rows shifted by one. -/
theorem c5_cells_range_label_witness :
    cells_range ((0, 0), (1, 1)) = .ok "A1:B2" := by
  have h := c5_cells_range_label.1 ((0, 0), (1, 1)) (by norm_num) (by norm_num)
    (by norm_num) (by norm_num) (by norm_num) (by norm_num)
  exact h

/-- C6: a `keep_header` option (default true) is claimed; the constructor of
the source recognizes no such option: the header element is never the "no
region" sentinel, and the body always starts below the header (row
`header_depth + skip_rows + 1` ≥ 2), never at row 1 as the test suite's
`keep_header=False` cases expect. -/
theorem c6_no_keep_header_option :
    (∀ s : Spread, header_element s = some (header_coordinates s))
    ∧ (∀ s : Spread, 0 ≤ s.skip_rows → 1 ≤ s.header_depth → 2 ≤ (body_coordinates s).1.2)
    ∧ body_coordinates ex3 = ((0, 2), (2, 4)) := by
  refine ⟨fun s => rfl, ?_, rfl⟩
  intro s h1 h2
  simp only [body_coordinates, first_column_coordinates]
  omega

/-- Witness for C6 on the 3 × 3 test dataset: its body starts at row 2. -/
theorem c6_no_keep_header_option_witness :
    2 ≤ (body_coordinates ex3).1.2 :=
  c6_no_keep_header_option.2.1 ex3 (by decide) (by decide)

/-- C7: a non-range string column token is first matched exactly and
case-sensitively against the ordered column-label list (the resolved value
is the first matching position), and only on a failed match is it
interpreted as a spreadsheet letter; "Foo:Fez" resolves to [0, 1, 2] and
"A" (no such label) resolves through the letter codec to 0. -/
theorem c7_label_priority :
    (∀ (s : Spread) (token : String) (k : Nat),
        listIndex (pyStrip token) s.col_labels = some k →
        str_index_to_int s token true = .ok (k : Int))
    ∧ (∀ (s : Spread) (token : String),
        listIndex (pyStrip token) s.col_labels = none →
        str_index_to_int s token true = index_from_letter (pyStrip token))
    ∧ (∀ (t : String) (l : List String) (k : Nat), listIndex t l = some k →
        l[k]? = some t ∧ ∀ j, j < k → l[j]? ≠ some t)
    ∧ str_key_to_int exFoo "Foo:Fez" true = .ok [0, 1, 2]
    ∧ str_key_to_int exFoo "A" true = .ok [0] := by
  refine ⟨?_, ?_, ?_, rfl, rfl⟩
  · intro s token k h
    simp [str_index_to_int, h]
  · intro s token h
    simp [str_index_to_int, h]
  · exact fun t l k h => listIndex_first l k h

/-- Witness for C7: "Foo" resolves by label to 0 and "A" falls back to the
letter codec on the ["Foo","Bar","Fez"] dataset. -/
theorem c7_label_priority_witness :
    str_index_to_int exFoo "Foo" true = .ok ((0 : Nat) : Int)
    ∧ str_index_to_int exFoo "A" true = index_from_letter (pyStrip "A")
    ∧ (["Foo", "Bar", "Fez"][0]? = some "Foo"
        ∧ ∀ j, j < 0 → ["Foo", "Bar", "Fez"][j]? ≠ some "Foo") :=
  ⟨c7_label_priority.1 exFoo "Foo" 0 rfl,
   c7_label_priority.2.1 exFoo "A" rfl,
   c7_label_priority.2.2.1 "Foo" ["Foo", "Bar", "Fez"] 0 rfl⟩

/-- C8 counterexample: two different out-of-range column keys (5 and 7, body
bound 2) produce the identical fixed KeyError message, which contains no
digit at all, so the error cannot be naming the offending key as the claim
states. -/
theorem c8_counterexample_fixed_message :
    column ex3 [Sum.inl 5] false
      = .error (.keyError "A column you are trying to access is out of index")
    ∧ column ex3 [Sum.inl 7] false
      = .error (.keyError "A column you are trying to access is out of index")
    ∧ "A column you are trying to access is out of index".data.all
        (fun ch => !ch.isDigit) = true :=
  ⟨rfl, rfl, rfl⟩

/-- C8 amended: each resolved column index (row number) is checked, in
selector order, against only the body's bottom-right column (row) bound;
the first value exceeding it fails with a KeyError carrying a fixed message
that does not name the key, and indices within the bound never produce an
ok result in this snapshot because `cells_rectangle` returns `None`. -/
theorem c8_bound_check :
    (∀ (s : Spread) (ih : Bool) (c : Int) (rest : List Int),
        (body_coordinates s).2.1 < c →
        column s ((c :: rest).map Sum.inl) ih =
          .error (.keyError "A column you are trying to access is out of index"))
    ∧ (∀ (s : Spread) (ii : Bool) (r : Int) (rest : List Int),
        (body_coordinates s).2.2 < r + 1 →
        row s ((r :: rest).map Sum.inl) ii =
          .error (.keyError "A row you are trying to access is out of index"))
    ∧ (∀ (s : Spread) (ih : Bool) (c : Int) (rest : List Int) (cs : List String),
        ¬(body_coordinates s).2.1 < c →
        column s ((c :: rest).map Sum.inl) ih ≠ .ok cs) := by
  refine ⟨?_, ?_, ?_⟩
  · intro s ih c rest h
    unfold column
    rw [resolve_column_key_ints]
    simp only [pyBind_ok]
    unfold column_loop
    rw [if_pos h]
  · intro s ii r rest h
    unfold row
    rw [resolve_row_key_ints]
    simp only [pyBind_ok, List.map_cons]
    unfold row_loop
    rw [if_pos h]
  · intro s ih c rest cs h
    unfold column
    rw [resolve_column_key_ints]
    simp only [pyBind_ok]
    exact column_loop_not_ok s _ _ c rest h cs

/-- Witness for C8's amended statement on the 3 × 3 dataset: key 6 exceeds
the body bound 2 and fails with the fixed message; the in-range key 0 never
returns cells. -/
theorem c8_bound_check_witness :
    column ex3 [Sum.inl 6] false
      = .error (.keyError "A column you are trying to access is out of index")
    ∧ row ex3 [Sum.inl 9] false
      = .error (.keyError "A row you are trying to access is out of index")
    ∧ column ex3 [Sum.inl 0] false ≠ .ok ["A2", "A3", "A4"] :=
  ⟨c8_bound_check.1 ex3 false 6 [] (by decide),
   c8_bound_check.2.1 ex3 false 9 [] (by decide),
   c8_bound_check.2.2 ex3 false 0 [] ["A2", "A3", "A4"] (by decide)⟩

/-- C9 counterexample: on a dataset view with zero columns (allowed by the
claim, which requires only column_count ≥ 0) the header rectangle has its
bottom-right column strictly left of its top-left column, violating the
claimed invariant. -/
theorem c9_counterexample_zero_cols :
    ¬((header_coordinates exNoCols).1.1 ≤ (header_coordinates exNoCols).2.1) := by
  decide

/-- C9 amended: with at least one row and one column (and the depths ≥ 1
that `indexes_depth` guarantees), every region pair the code computes
satisfies top_left.col ≤ bottom_right.col and top_left.row ≤
bottom_right.row, for any skips and keep flags. -/
theorem c9_region_invariant :
    ∀ s : Spread, 1 ≤ s.n_rows → 1 ≤ s.n_cols → 1 ≤ s.index_depth → 1 ≤ s.header_depth →
      pairInv (header_coordinates s) ∧ pairInv (body_coordinates s)
      ∧ pairInv (first_column_coordinates s)
      ∧ (∀ p, index_coordinates s = some p → pairInv p)
      ∧ (∀ p, table_coordinates s = some p → pairInv p) := by
  intro s h1 h2 h3 h4
  have hb : boolInt s.keep_index = 0 ∨ boolInt s.keep_index = 1 := by
    unfold boolInt
    cases s.keep_index <;> simp
  refine ⟨?_, ?_, ?_, ?_, ?_⟩
  · unfold pairInv header_coordinates
    rcases hb with hb | hb <;> rw [hb] <;> dsimp only <;> constructor <;> omega
  · unfold pairInv body_coordinates header_coordinates first_column_coordinates
    rcases hb with hb | hb <;> rw [hb] <;> dsimp only <;> constructor <;> omega
  · unfold pairInv first_column_coordinates
    rcases hb with hb | hb <;> rw [hb] <;> dsimp only <;> constructor <;> omega
  · intro p hp
    unfold index_coordinates at hp
    cases hk : s.keep_index with
    | false => rw [hk] at hp; simp at hp
    | true =>
      rw [hk] at hp
      simp at hp
      subst hp
      unfold pairInv
      dsimp only
      constructor <;> omega
  · intro p hp
    unfold table_coordinates index_coordinates header_coordinates at hp
    cases hk : s.keep_index with
    | false => rw [hk] at hp; simp at hp
    | true =>
      rw [hk] at hp
      simp at hp
      subst hp
      unfold pairInv
      dsimp only
      constructor <;> (try simp [boolInt]) <;> omega

/-- Witness for C9's amended invariant on the 3 × 3 test dataset. -/
theorem c9_region_invariant_witness :
    pairInv (header_coordinates ex3) ∧ pairInv (body_coordinates ex3) :=
  ⟨(c9_region_invariant ex3 (by decide) (by decide) (by decide) (by decide)).1,
   (c9_region_invariant ex3 (by decide) (by decide) (by decide) (by decide)).2.1⟩

/-- C10: on the empty token (reachable from the selector "Foo," through the
empty comma-separated bit), `index_from_letter` performs the out-of-bounds
access `spreadsheet_letter[-1]` and fails with IndexError, not with the
documented RangeError-class ValueError. -/
theorem c10_empty_letter_index_error :
    index_from_letter "" = .error .indexError
    ∧ str_key_to_int exFoo "Foo," true = .error .indexError :=
  ⟨rfl, rfl⟩
